import Mathlib

/-!
Verification development for the ImageStack / PhotoBrain repository.

The definitions below are shallow embeddings of the Python sources:
  * `python_server/services/photobrain_filters.py`   (`apply_filters`)
  * `python_server/services/photobrain_text_search.py` (`PhotoBrainTextSearchService.search`)
  * `python_server/services/photobrain_query_service.py` (`PhotoBrainQueryService.answer_question`)
  * `python_server/services/photobrain_autotag.py`   (`PhotoBrainAutoTagger.auto_tag`)
  * `python_server/services/photobrain_embedding.py` (`PhotoBrainEmbedder.embed_image_and_text`)
  * `python_server/services/photobrain_ingest_service.py` (step 8, store upsert)
  * `python_server/services/photobrain_watcher.py`   (`_IngestHandler._handle_path`)
  * `photobrain/ingestor.py`                         (`scan_once` decision logic)
  * `photobrain/index_store.py`                      (`IndexStore.get` / `upsert`)

Machine conventions: timestamps are modelled as integers (seconds), scores and
confidences as rationals, vectors as elements of a Euclidean space over ℝ.
External capabilities (CLIP embedder outputs, the vector store ranking, the
LLM, the JSON parser of the Python standard library) are supplied as explicit
function parameters; everything downstream of them is translated from the
source line by line.
-/

namespace ImageStack

/-! ## String helpers (Python `str.lower`, substring containment `in`) -/

/-- Python `s.lower()` on the character list. -/
def lowerStr (s : String) : String :=
  String.mk (s.data.map Char.toLower)

/-- `needleLeads needle hay`: the character list `needle` starts the list `hay`. -/
def needleLeads : List Char → List Char → Bool
  | [], _ => true
  | _ :: _, [] => false
  | a :: as, b :: bs => a == b && needleLeads as bs

/-- Python `needle in hay` on character lists. -/
def listHasSub (hay needle : List Char) : Bool :=
  match hay with
  | [] => needle.isEmpty
  | _ :: t => needleLeads needle hay || listHasSub t needle

/-- Python `needle in hay` for strings. -/
def strHasSub (hay needle : String) : Bool :=
  listHasSub hay.data needle.data

/-- Python `s.startswith(c)` for a single character. -/
def headIs (s : String) (c : Char) : Bool :=
  match s.data with
  | [] => false
  | x :: _ => x == c

/-- Drop leading whitespace from a character list. -/
def dropWs : List Char → List Char
  | [] => []
  | c :: t => if c.isWhitespace then dropWs t else c :: t

/-- Python `s.strip()`: remove whitespace from both ends. -/
def pyStrip (s : String) : String :=
  String.mk ((dropWs (dropWs s.data).reverse).reverse)

/-! ## Data model: payload, scored point, search match
    (`python_server/models/photobrain_query_models.py`) -/

/-- A VectorStore payload as written by `ingest_image` and read by the search
services.  The `exif` sub-dictionary is flattened to its two device keys. -/
structure Payload where
  filename : Option String := none
  path_raw : Option String := none
  path_processed : Option String := none
  hash : Option String := none
  ingested_at : Option Int := none
  ocr_text : Option String := none
  ocr_confidence : Option ℚ := none
  tags : Option (List String) := none
  category : Option String := none
  exif_device_model : Option String := none
  exif_model_key : Option String := none
  deriving DecidableEq, Repr

/-- One raw result from the VectorStore (`qdrant` scored point). -/
structure ScoredPoint where
  id : String
  score : ℚ
  payload : Option Payload
  deriving DecidableEq, Repr

/-- `PhotoBrainSearchMatch` from `photobrain_query_models.py`. -/
structure SearchMatch where
  id : String
  score : ℚ
  filename : String
  path_raw : String
  path_processed : Option String
  hash : Option String
  ingested_at : Option Int
  ocr_text : Option String
  ocr_confidence : Option ℚ
  metadata : Payload
  deriving DecidableEq, Repr

/-- Match construction shared verbatim by `photobrain_text_search.py`,
`photobrain_image_search.py` and `photobrain_query_service.py`
(`payload = r.payload or {}` then field-by-field `payload.get(..) or ..`). -/
def toMatch (r : ScoredPoint) : SearchMatch :=
  let payload := r.payload.getD {}
  { id := r.id
    score := r.score
    filename := payload.filename.getD ""
    path_raw := payload.path_raw.getD ""
    path_processed := payload.path_processed
    hash := payload.hash
    ingested_at := payload.ingested_at
    ocr_text := payload.ocr_text
    ocr_confidence := payload.ocr_confidence
    metadata := payload }

/-! ## Filters (`python_server/models/photobrain_filters.py`,
    `python_server/services/photobrain_filters.py`) -/

/-- `PhotoBrainFilterRequest`: all fields optional, absent means no constraint. -/
structure FilterRequest where
  days : Option Int := none
  date_min : Option Int := none
  date_max : Option Int := none
  tag : Option String := none
  tags : Option (List String) := none
  contains_text : Option String := none
  confidence_min : Option ℚ := none
  device : Option String := none
  category : Option String := none
  deriving DecidableEq, Repr

/-- Python truthiness of an optional string (`if filters.tag:`). -/
def optStrTruthy : Option String → Bool
  | none => false
  | some s => !(s == "")

/-- Python truthiness of an optional list (`if filters.tags:`). -/
def optListTruthy : Option (List String) → Bool
  | none => false
  | some l => !l.isEmpty

/-- Python `a or b or ""` over two optional strings (first truthy wins). -/
def firstTruthyStr (a b : Option String) : String :=
  match a with
  | some s => if s == "" then (match b with | some t => t | none => "") else s
  | none => match b with | some t => t | none => ""

/-- The `days` check of `apply_filters` (reject when `ingested_at` is absent
or older than `now - days`). -/
def daysCheck (now : Int) (days : Option Int) (m : SearchMatch) : Bool :=
  match days with
  | none => true
  | some d =>
    match m.ingested_at with
    | none => false
    | some t => !(t < now - d * 86400)

/-- The `date_min` check (`if filters.date_min and m.ingested_at:`). -/
def dateMinCheck (dmin : Option Int) (m : SearchMatch) : Bool :=
  match dmin, m.ingested_at with
  | some lo, some t => !(t < lo)
  | _, _ => true

/-- The `date_max` check (`if filters.date_max and m.ingested_at:`). -/
def dateMaxCheck (dmax : Option Int) (m : SearchMatch) : Bool :=
  match dmax, m.ingested_at with
  | some hi, some t => !(hi < t)
  | _, _ => true

/-- Tag substring check: some stored tag contains `filters.tag`
case-insensitively. -/
def tagCheck (tag : Option String) (m : SearchMatch) : Bool :=
  if optStrTruthy tag then
    let t := lowerStr (tag.getD "")
    (m.metadata.tags.getD []).any (fun x => strHasSub (lowerStr x) t)
  else true

/-- Required-tags check: every requested tag is literally present
(case-insensitively) in the stored tag list. -/
def tagsCheck (tags : Option (List String)) (m : SearchMatch) : Bool :=
  if optListTruthy tags then
    let required := (tags.getD []).map lowerStr
    let lowerTags := (m.metadata.tags.getD []).map lowerStr
    required.all (fun t => lowerTags.contains t)
  else true

/-- OCR text substring check (`filters.contains_text.lower() in ocr.lower()`). -/
def containsTextCheck (ct : Option String) (m : SearchMatch) : Bool :=
  if optStrTruthy ct then
    strHasSub (lowerStr (m.ocr_text.getD "")) (lowerStr (ct.getD ""))
  else true

/-- OCR confidence lower-bound check. -/
def confidenceCheck (cmin : Option ℚ) (m : SearchMatch) : Bool :=
  match cmin with
  | none => true
  | some c =>
    match m.ocr_confidence with
    | none => false
    | some oc => !(oc < c)

/-- Device substring check over
`exif.get("device_model") or exif.get("Model") or ""`. -/
def deviceCheck (device : Option String) (m : SearchMatch) : Bool :=
  if optStrTruthy device then
    let dev := lowerStr
      (firstTruthyStr m.metadata.exif_device_model m.metadata.exif_model_key)
    strHasSub dev (lowerStr (device.getD ""))
  else true

/-- Category exact (case-insensitive) check; a missing or empty stored
category is rejected. -/
def categoryCheck (category : Option String) (m : SearchMatch) : Bool :=
  if optStrTruthy category then
    match m.metadata.category with
    | none => false
    | some c => if c == "" then false else lowerStr (category.getD "") == lowerStr c
  else true

/-- One match passing all nine AND-ed checks of `apply_filters`, in source
order. -/
def matchPasses (now : Int) (f : FilterRequest) (m : SearchMatch) : Bool :=
  daysCheck now f.days m &&
  dateMinCheck f.date_min m &&
  dateMaxCheck f.date_max m &&
  tagCheck f.tag m &&
  tagsCheck f.tags m &&
  containsTextCheck f.contains_text m &&
  confidenceCheck f.confidence_min m &&
  deviceCheck f.device m &&
  categoryCheck f.category m

/-- `apply_filters(matches, filters)`: identity when `filters is None`,
otherwise keep exactly the matches passing all present predicates, in order.
`now` is the clock value read once at the top of the Python function. -/
def apply_filters (now : Int) (filters : Option FilterRequest)
    (ms : List SearchMatch) : List SearchMatch :=
  match filters with
  | none => ms
  | some f => ms.filter (fun m => matchPasses now f m)

/-- Left-biased union of two optional fields. -/
def unionOpt {α : Type} (a b : Option α) : Option α :=
  match a with
  | some x => some x
  | none => b

/-- Field-wise union of two filter requests. -/
def unionFilters (f1 f2 : FilterRequest) : FilterRequest :=
  { days := unionOpt f1.days f2.days
    date_min := unionOpt f1.date_min f2.date_min
    date_max := unionOpt f1.date_max f2.date_max
    tag := unionOpt f1.tag f2.tag
    tags := unionOpt f1.tags f2.tags
    contains_text := unionOpt f1.contains_text f2.contains_text
    confidence_min := unionOpt f1.confidence_min f2.confidence_min
    device := unionOpt f1.device f2.device
    category := unionOpt f1.category f2.category }

/-- The present (non-`None`) fields of `f1` and `f2` are disjoint. -/
def DisjointFilters (f1 f2 : FilterRequest) : Prop :=
  (f1.days = none ∨ f2.days = none) ∧
  (f1.date_min = none ∨ f2.date_min = none) ∧
  (f1.date_max = none ∨ f2.date_max = none) ∧
  (f1.tag = none ∨ f2.tag = none) ∧
  (f1.tags = none ∨ f2.tags = none) ∧
  (f1.contains_text = none ∨ f2.contains_text = none) ∧
  (f1.confidence_min = none ∨ f2.confidence_min = none) ∧
  (f1.device = none ∨ f2.device = none) ∧
  (f1.category = none ∨ f2.category = none)

instance (f1 f2 : FilterRequest) : Decidable (DisjointFilters f1 f2) := by
  unfold DisjointFilters
  infer_instance

/-! ## Retrieval (`photobrain_text_search.py`) and QA
    (`photobrain_query_service.py`) -/

/-- The VectorStore's ranked answer for a query vector; `client.search`
with a `limit` returns its first `limit` entries. -/
def client_search (store : List ℚ → List ScoredPoint) (vec : List ℚ)
    (limit : Nat) : List ScoredPoint :=
  (store vec).take limit

/-- The over-fetch limit of `PhotoBrainTextSearchService.search`
(`retrieve_k = top_k * 3 if filters else top_k`; a present
`PhotoBrainFilterRequest` object is always truthy). -/
def retrieve_k (topK : Nat) (filters : Option FilterRequest) : Nat :=
  if filters.isSome then topK * 3 else topK

/-- `PhotoBrainTextSearchService.search` given the already-computed query
vector: fetch `retrieve_k` raw points, build matches, filter, trim to
`top_k`. -/
def text_search (store : List ℚ → List ScoredPoint) (now : Int)
    (vec : List ℚ) (topK : Nat) (filters : Option FilterRequest) :
    List SearchMatch :=
  let raw := (client_search store vec (retrieve_k topK filters)).map toMatch
  (apply_filters now filters raw).take topK

/-- `PhotoBrainQaResponse` from `photobrain_query_models.py`. -/
structure QaResponse where
  answer : String
  matchList : List SearchMatch
  raw_answer : String
  deriving DecidableEq, Repr

/-- The fixed fallback answer of `answer_question`. -/
def FALLBACK_ANSWER : String :=
  "I couldn\x27t find any images that appear to answer that question."

/-- `PhotoBrainQueryService.answer_question` given the already-computed
question embedding.  The LLM capability is a function of the retrieved
matches (the prompt is a deterministic function of question and matches);
the returned `Bool` records whether the LLM was called. -/
def answer_question (store : List ℚ → List ScoredPoint)
    (llm : List SearchMatch → String) (vec : List ℚ) (topK : Nat) :
    QaResponse × Bool :=
  let ms := (client_search store vec topK).map toMatch
  if ms.isEmpty then
    ({ answer := FALLBACK_ANSWER, matchList := [], raw_answer := "" }, false)
  else
    let raw := pyStrip (llm ms)
    ({ answer := raw, matchList := ms, raw_answer := raw }, true)

/-! ## Auto-tagger post-processing (`photobrain_autotag.py`) -/

/-- The closed category set `CANONICAL_CATEGORIES`. -/
def CANONICAL_CATEGORIES : List String :=
  ["receipt", "invoice", "id_card", "serial_plate", "document", "form",
   "handwritten_notes", "whiteboard", "screenshot", "info_card",
   "photo_of_object", "other"]

/-- The best-effort substring heuristics applied when the parsed category is
not an exact member of the closed set (source lines 170-187), in source
order. -/
def bestEffortCategory (category : String) : String :=
  if strHasSub category "receipt" then "receipt"
  else if strHasSub category "invoice" then "invoice"
  else if strHasSub category "serial" || strHasSub category "plate" then "serial_plate"
  else if strHasSub category "whiteboard" then "whiteboard"
  else if strHasSub category "screenshot" then "screenshot"
  else if strHasSub category "handwrit" then "handwritten_notes"
  else if strHasSub category "form" then "form"
  else if strHasSub category "document" || strHasSub category "doc" then "document"
  else "other"

/-- Category normalization: exact match against the closed set first, the
substring heuristics only when that leaves `"other"`. -/
def normalizeCategory (category : String) : String :=
  let canonical := if CANONICAL_CATEGORIES.contains category then category else "other"
  if canonical == "other" then bestEffortCategory category else canonical

/-- The opening-brace character, spelled by code point. -/
def lbrace : Char := Char.ofNat 123

/-- The closing-brace character, spelled by code point. -/
def rbrace : Char := Char.ofNat 125

/-- Index of the first occurrence of `c` (Python `str.find`), `none` when
absent. -/
def firstIdxOf (cs : List Char) (c : Char) : Option Nat :=
  match cs with
  | [] => none
  | x :: t => if x == c then some 0 else (firstIdxOf t c).map (· + 1)

/-- Index of the last occurrence of `c` (Python `str.rfind`), `none` when
absent. -/
def lastIdxOf (cs : List Char) (c : Char) : Option Nat :=
  match (firstIdxOf cs.reverse c) with
  | none => none
  | some k => some (cs.length - 1 - k)

/-- `raw_resp[start : end + 1]` when a `{` ... `}` span exists, else the whole
response (source lines 146-152). -/
def extractJsonSlice (raw : String) : String :=
  let cs := raw.data
  match firstIdxOf cs lbrace, lastIdxOf cs rbrace with
  | some s, some e =>
    if s < e then String.mk ((cs.drop s).take (e + 1 - s)) else raw
  | _, _ => raw

/-- The structure `json.loads` hands back when it succeeds: the three fields
the code reads (`category`, `tags`, `confidence`), each possibly absent. -/
structure ParsedTagJson where
  category : Option String := none
  tags : List String := []
  confidence : ℚ := 0
  deriving DecidableEq, Repr

/-- `AutoTagResult` from `photobrain_autotag.py`. -/
structure AutoTagResult where
  category : String
  tags : List String
  confidence : ℚ
  deriving DecidableEq, Repr

/-- Tag cleanup: keep non-empty stripped strings. -/
def cleanTags (tags : List String) : List String :=
  (tags.map pyStrip).filter (fun s => !(s == ""))

/-- The pure tail of `PhotoBrainAutoTagger.auto_tag` after the capability
call: strip the raw response, slice out the JSON block, parse it (the
standard-library `json.loads` is the `parse` oracle; `none` means it raised),
and on success normalize category and tags.  A parse failure returns `none`
(source line 156), exactly like a failed capability call. -/
def auto_tag_post (parse : String → Option ParsedTagJson)
    (response : String) : Option AutoTagResult :=
  let rawResp := pyStrip response
  let jsonStr := extractJsonSlice rawResp
  match parse jsonStr with
  | none => none
  | some p =>
    let category := lowerStr (pyStrip (p.category.getD ""))
    some { category := normalizeCategory category
           tags := cleanTags p.tags
           confidence := p.confidence }

/-! ## Reconciler scan (`photobrain/ingestor.py`, `photobrain/index_store.py`) -/

/-- `FileRecord` from `index_store.py`; `mtime` and the ingestion timestamp
are rationals (floats in the source). -/
structure FileRecord where
  path : String
  mtime : ℚ
  hash : String
  last_ingested_utc : ℚ
  deriving DecidableEq, Repr

/-- The ChangeIndex contents: one row per path (`path TEXT PRIMARY KEY`). -/
def IndexStoreState := List FileRecord

/-- `IndexStore.get`: the row for `path`, if any. -/
def index_get (st : IndexStoreState) (path : String) : Option FileRecord :=
  st.find? (fun r => r.path == path)

/-- `IndexStore.upsert`: replace the row with the same path, else insert. -/
def index_upsert (st : IndexStoreState) (rec : FileRecord) : IndexStoreState :=
  if st.any (fun r => r.path == rec.path) then
    st.map (fun r => if r.path == rec.path then rec else r)
  else
    List.cons rec st

/-- What `scan_once` decides for one candidate file. -/
inductive ScanAction where
  /-- Fast path: stored mtime unchanged, skip without hashing. -/
  | skipMtime
  /-- Skip after hashing (`rec.hash == file_hash and rec.mtime == mtime`). -/
  | skipHash
  /-- Submit the file for ingestion. -/
  | ingest
  deriving DecidableEq, Repr

/-- The per-file decision of `scan_once` (source lines 94-108), translated
branch by branch: first `rec and rec.mtime == mtime`, then
`rec and rec.hash == file_hash and rec.mtime == mtime`, else ingest. -/
def scan_file_action (rec : Option FileRecord) (mtime : ℚ) (fileHash : String) :
    ScanAction :=
  match rec with
  | some r =>
    if r.mtime = mtime then .skipMtime
    else if r.hash = fileHash ∧ r.mtime = mtime then .skipHash
    else .ingest
  | none => .ingest

/-- One `scan_once` loop iteration over the ChangeIndex: look the path up,
decide, and on (successful) ingestion upsert the fresh record.  Returns the
new index state and whether an ingestion call was made. -/
def scan_step (st : IndexStoreState) (path : String) (mtime : ℚ)
    (fileHash : String) (nowTs : ℚ) : IndexStoreState × Bool :=
  match scan_file_action (index_get st path) mtime fileHash with
  | .skipMtime => (st, false)
  | .skipHash => (st, false)
  | .ingest =>
    (index_upsert st { path := path, mtime := mtime, hash := fileHash,
                       last_ingested_utc := nowTs }, true)

/-! ## Live watcher handler (`photobrain_watcher.py`) -/

/-- In-process state of one `_IngestHandler`: the session set of seen
content hashes. -/
structure WatcherState where
  seen_hashes : List String
  deriving DecidableEq, Repr

/-- Outcome of one submission to the ingestion endpoint. -/
inductive SubmitOutcome where
  /-- HTTP 2xx: file moved to the `processed` subdirectory. -/
  | ok
  /-- Network error or non-2xx: file moved to the `failed` subdirectory. -/
  | failed
  deriving DecidableEq, Repr

/-- What `_handle_path` did with one filesystem event. -/
inductive HandleResult where
  /-- Hidden or temp-prefixed name ignored. -/
  | ignoredName
  /-- Extension outside the allow-list ignored. -/
  | ignoredExt
  /-- File never stabilized (or vanished); abandoned. -/
  | unstable
  /-- Hash already in the session set; skipped. -/
  | dupSkip
  /-- Submitted to the ingestion endpoint with this outcome. -/
  | submitted (outcome : SubmitOutcome)
  deriving DecidableEq, Repr

/-- `_IngestHandler._handle_path` (source lines 82-108): name filter,
extension filter, stabilization, session dedup, then submission.  The hash is
added to `seen_hashes` *before* the submission and never removed, whatever
the outcome. -/
def handle_path (exts : List String) (name : String) (ext : String)
    (stable : Bool) (digest : String) (submit : String → SubmitOutcome)
    (st : WatcherState) : WatcherState × HandleResult :=
  if headIs name (Char.ofNat 126) || headIs name (Char.ofNat 46) then (st, .ignoredName)
  else if !(exts.contains (lowerStr ext)) then (st, .ignoredExt)
  else if !stable then (st, .unstable)
  else if st.seen_hashes.contains digest then (st, .dupSkip)
  else ({ seen_hashes := digest :: st.seen_hashes }, .submitted (submit digest))

/-! ## Embedding fusion (`photobrain_embedding.py`) and the store write of
    `ingest_image` (`photobrain_ingest_service.py`, step 8) -/

/-- Vectors live in `ℝ^n` with the Euclidean (`np.linalg.norm`) norm. -/
abbrev Vec (n : Nat) := EuclideanSpace ℝ (Fin n)

/-- `PhotoBrainEmbedder.embed_image_and_text` given the two capability
outputs `imgVec = embed_image(path)` and `txtVec = embed_text(text)`:
`if not text: return img_vec`, else sum and renormalize, leaving the sum
unchanged when its norm is not positive (source lines 81-91). -/
noncomputable def embed_image_and_text {n : Nat} (imgVec : Vec n)
    (text : Option String) (txtVec : Vec n) : Vec n :=
  match text with
  | none => imgVec
  | some t =>
    if t = "" then imgVec
    else
      let combined := imgVec + txtVec
      if 0 < ‖combined‖ then ‖combined‖⁻¹ • combined else combined

/-- One record of the `photobrain` VectorStore collection. -/
structure StoredImage (n : Nat) where
  id : String
  vector : Vec n
  payload : Payload

/-- Step 8 of `ingest_image`: `if vector is not None:` upsert and set
`embedded = True`, else leave the store untouched and set
`embedded = False`.  `vector` is `None` exactly when the embedding step was
disabled or raised. -/
def upsert_if_vector {n : Nat} (vector : Option (Vec n)) (imageId : String)
    (payload : Payload) (store : List (StoredImage n)) :
    Bool × List (StoredImage n) :=
  match vector with
  | some v => (true, store ++ [{ id := imageId, vector := v, payload := payload }])
  | none => (false, store)

/-- Steps 7-8 of `ingest_image` combined: when embedding is enabled the
vector is the fused embedding unless the embedder raised (`embedRaises`),
and the record is stored exactly when a vector was produced. -/
noncomputable def ingest_embed_and_store {n : Nat} (embed : Bool)
    (embedRaises : Bool) (imgVec : Vec n) (ocrText : Option String)
    (txtVec : Vec n) (imageId : String) (payload : Payload)
    (store : List (StoredImage n)) : Bool × List (StoredImage n) :=
  let vector : Option (Vec n) :=
    if embed then
      if embedRaises then none
      else some (embed_image_and_text imgVec ocrText txtVec)
    else none
  upsert_if_vector vector imageId payload store

/-! # Theorems -/

/-! ## Supporting lemmas -/

/-- The hash-based skip branch of `scan_once` is unreachable: it requires
`rec.mtime == mtime`, which the preceding fast-path check already ruled out. -/
theorem scan_hash_skip_branch_dead (rec : Option FileRecord) (mtime : ℚ)
    (fileHash : String) : scan_file_action rec mtime fileHash ≠ ScanAction.skipHash := by
  cases rec with
  | none => simp [scan_file_action]
  | some r =>
    simp only [scan_file_action]
    split_ifs with h1 h2
    · simp
    · exact absurd h2.2 h1
    · simp

/-- Every result of the substring heuristics is in the closed category set. -/
theorem bestEffort_mem (s : String) :
    bestEffortCategory s ∈ CANONICAL_CATEGORIES := by
  unfold bestEffortCategory
  split_ifs <;> simp [CANONICAL_CATEGORIES]

/-- Category normalization always lands in the closed category set. -/
theorem normalizeCategory_mem (s : String) :
    normalizeCategory s ∈ CANONICAL_CATEGORIES := by
  unfold normalizeCategory
  by_cases hmem : s ∈ CANONICAL_CATEGORIES
  · by_cases ho : s = "other"
    · subst ho
      simp
      exact bestEffort_mem "other"
    · simp [hmem, ho]
  · simpa [hmem] using bestEffort_mem s

/-! ## C2 -/

/-- C2 (code bug): `scan_once`, run on a candidate whose stored record has
the same content hash but a different mtime, submits the file for ingestion
instead of skipping it: the hash-based skip condition also re-tests
`rec.mtime == mtime`, which is false on every path that reaches it. -/
theorem scan_unchanged_hash_changed_mtime_ingests :
    scan_file_action
      (some { path := "/photos/a.jpg", mtime := 1, hash := "h0",
              last_ingested_utc := 0 })
      2 "h0" = ScanAction.ingest ∧
    (scan_step [{ path := "/photos/a.jpg", mtime := 1, hash := "h0",
                  last_ingested_utc := 0 }] "/photos/a.jpg" 2 "h0" 5).2 = true := by
  constructor <;> rfl

/-! ## C5 -/

/-- C5 (counterexample): a file whose submission failed leaves its hash in
the session seen-set, so re-placing a byte-identical copy in the watched
directory during the same watcher session is skipped as a duplicate, not
submitted again. -/
theorem watcher_failed_file_blocked_on_resubmit :
    (handle_path ["jpg"] "a.jpg" "jpg" true "d41d8" (fun _ => SubmitOutcome.failed)
        { seen_hashes := [] }).2 = HandleResult.submitted SubmitOutcome.failed ∧
    (handle_path ["jpg"] "a.jpg" "jpg" true "d41d8" (fun _ => SubmitOutcome.failed)
        (handle_path ["jpg"] "a.jpg" "jpg" true "d41d8" (fun _ => SubmitOutcome.failed)
          { seen_hashes := [] }).1).2 = HandleResult.dupSkip := by
  constructor <;> rfl

/-- C5 (amended): `_handle_path` records the content hash in the in-process
seen-set before submitting and never removes it, so after a failed submission
a byte-identical re-placed copy is deduplicated (skipped) for the rest of the
watcher session rather than submitted again. -/
theorem watcher_seen_set_blocks_resubmission (exts : List String)
    (name ext : String) (stable : Bool) (digest : String)
    (submit resubmit : String → SubmitOutcome) (st : WatcherState)
    (h : (handle_path exts name ext stable digest submit st).2
          = HandleResult.submitted SubmitOutcome.failed) :
    (handle_path exts name ext stable digest resubmit
        (handle_path exts name ext stable digest submit st).1).2
      = HandleResult.dupSkip := by
  unfold handle_path at h ⊢
  split_ifs at h ⊢ <;> simp_all

/-- C5 witness: the amended statement at a concrete failing submission. -/
theorem watcher_seen_set_blocks_resubmission_witness :
    (handle_path ["jpg"] "b.jpg" "jpg" true "abc" (fun _ => SubmitOutcome.ok)
        (handle_path ["jpg"] "b.jpg" "jpg" true "abc" (fun _ => SubmitOutcome.failed)
          { seen_hashes := [] }).1).2
      = HandleResult.dupSkip :=
  watcher_seen_set_blocks_resubmission ["jpg"] "b.jpg" "jpg" true "abc"
    (fun _ => SubmitOutcome.failed) (fun _ => SubmitOutcome.ok)
    { seen_hashes := [] } (by rfl)

/-! ## C3 -/

/-- C3 (counterexample): a capability response whose raw text does not parse
as JSON (the parse oracle returns `none`, as `json.loads` raises on this
input) yields no auto-tag result at all, even though substring matching of
the response against the closed set's keywords would have produced
`"receipt"`. -/
theorem autotag_parse_failure_yields_none :
    auto_tag_post (fun _ => none) "It is a receipt" = none ∧
    bestEffortCategory (lowerStr "It is a receipt") = "receipt" := by
  constructor
  · rfl
  · decide

/-- C3 (amended): the best-effort substring fallback applies only to the
`category` field of a successfully parsed response — a response whose text
fails to parse yields no auto-tag result, exactly like a total capability
failure; when parsing succeeds, the resulting category is always drawn from
the closed set, via exact match first and substring matching before the
final `"other"` default. -/
theorem autotag_fallback_only_after_parse
    (parse : String → Option ParsedTagJson) (response : String) :
    (parse (extractJsonSlice (pyStrip response)) = none →
      auto_tag_post parse response = none) ∧
    (∀ p, parse (extractJsonSlice (pyStrip response)) = some p →
      auto_tag_post parse response =
        some { category := normalizeCategory (lowerStr (pyStrip (p.category.getD "")))
               tags := cleanTags p.tags
               confidence := p.confidence } ∧
      (CANONICAL_CATEGORIES.contains (lowerStr (pyStrip (p.category.getD ""))) = false →
        normalizeCategory (lowerStr (pyStrip (p.category.getD ""))) =
          bestEffortCategory (lowerStr (pyStrip (p.category.getD ""))))) ∧
    (∀ r, auto_tag_post parse response = some r →
      r.category ∈ CANONICAL_CATEGORIES) := by
  refine ⟨?_, ?_, ?_⟩
  · intro h
    simp [auto_tag_post, h]
  · intro p hp
    refine ⟨by simp [auto_tag_post, hp], ?_⟩
    intro hc
    have hnm : lowerStr (pyStrip (p.category.getD "")) ∉ CANONICAL_CATEGORIES := by
      simpa using hc
    simp [normalizeCategory, hnm]
  · intro r hr
    cases hparse : parse (extractJsonSlice (pyStrip response)) with
    | none => simp [auto_tag_post, hparse] at hr
    | some p =>
      have heq : auto_tag_post parse response =
          some { category := normalizeCategory (lowerStr (pyStrip (p.category.getD "")))
                 tags := cleanTags p.tags
                 confidence := p.confidence } := by
        simp [auto_tag_post, hparse]
      rw [heq] at hr
      injection hr with h
      subst h
      exact normalizeCategory_mem _

/-- C3 witness: the amended statement at a concrete parsed response whose
category needs the substring fallback. -/
theorem autotag_fallback_only_after_parse_witness :
    auto_tag_post (fun _ => some { category := some "a receipt photo",
                                   tags := ["a", ""], confidence := 1 })
        "resp" =
      some { category := "receipt", tags := ["a"], confidence := 1 } := by
  have h := (autotag_fallback_only_after_parse
      (fun _ => some { category := some "a receipt photo",
                       tags := ["a", ""], confidence := 1 }) "resp").2.1
      { category := some "a receipt photo", tags := ["a", ""], confidence := 1 }
      rfl
  rw [h.1]
  decide

/-! ## C8 -/

/-- C8: when retrieval returns zero matches, `answer_question` returns the
fixed fallback answer, an empty match list and an empty raw answer, and the
LLM capability is not called (the second component is the called flag). -/
theorem qa_zero_matches_fallback_no_llm (store : List ℚ → List ScoredPoint)
    (llm : List SearchMatch → String) (vec : List ℚ) (topK : Nat)
    (h : (client_search store vec topK).map toMatch = []) :
    answer_question store llm vec topK =
      ({ answer := FALLBACK_ANSWER, matchList := [], raw_answer := "" }, false) := by
  simp [answer_question, h]

/-- C8 witness: an empty store retrieves zero matches and triggers the
fallback without an LLM call. -/
theorem qa_zero_matches_fallback_no_llm_witness :
    answer_question (fun _ => []) (fun _ => "llm text") [1] 5 =
      ({ answer := FALLBACK_ANSWER, matchList := [], raw_answer := "" }, false) :=
  qa_zero_matches_fallback_no_llm (fun _ => []) (fun _ => "llm text") [1] 5 (by rfl)

/-! ## C7 -/

/-- A per-field check that accepts an absent field distributes over the
left-biased union when at least one side is absent. -/
theorem unionOpt_check {α : Type} (chk : Option α → Bool) (hnone : chk none = true)
    (a b : Option α) (h : a = none ∨ b = none) :
    chk (unionOpt a b) = (chk a && chk b) := by
  rcases h with rfl | rfl
  · simp [unionOpt, hnone]
  · cases a <;> simp [unionOpt, hnone]

/-- Under disjoint present fields, passing the union filter is passing both
filters. -/
theorem matchPasses_union (now : Int) (f1 f2 : FilterRequest) (m : SearchMatch)
    (h : DisjointFilters f1 f2) :
    matchPasses now (unionFilters f1 f2) m
      = (matchPasses now f1 m && matchPasses now f2 m) := by
  obtain ⟨h1, h2, h3, h4, h5, h6, h7, h8, h9⟩ := h
  simp only [matchPasses, unionFilters]
  rw [unionOpt_check (fun o => daysCheck now o m) rfl _ _ h1,
      unionOpt_check (fun o => dateMinCheck o m) (by cases hm : m.ingested_at <;> rfl) _ _ h2,
      unionOpt_check (fun o => dateMaxCheck o m) (by cases hm : m.ingested_at <;> rfl) _ _ h3,
      unionOpt_check (fun o => tagCheck o m) rfl _ _ h4,
      unionOpt_check (fun o => tagsCheck o m) rfl _ _ h5,
      unionOpt_check (fun o => containsTextCheck o m) rfl _ _ h6,
      unionOpt_check (fun o => confidenceCheck o m) rfl _ _ h7,
      unionOpt_check (fun o => deviceCheck o m) rfl _ _ h8,
      unionOpt_check (fun o => categoryCheck o m) rfl _ _ h9]
  simp only [Bool.and_assoc, Bool.and_comm, Bool.and_left_comm]

/-- C7: filter evaluation is a pure AND of the present predicates, so for
filter sets with disjoint present fields, filtering by the union equals
filtering successively. -/
theorem filter_union_composes (now : Int) (f1 f2 : FilterRequest)
    (h : DisjointFilters f1 f2) (ms : List SearchMatch) :
    apply_filters now (some (unionFilters f1 f2)) ms
      = apply_filters now (some f2) (apply_filters now (some f1) ms) := by
  simp only [apply_filters]
  rw [List.filter_filter]
  apply List.filter_congr
  intro m _
  rw [matchPasses_union now f1 f2 m h, Bool.and_comm]

/-- C7 witness: disjoint tag and category filters compose on a concrete
one-element match list. -/
theorem filter_union_composes_witness :
    apply_filters 0
        (some (unionFilters { tag := some "beach" } { category := some "photo_of_object" }))
        [{ id := "m1", score := 1, filename := "f", path_raw := "p",
           path_processed := none, hash := none, ingested_at := some 10,
           ocr_text := none, ocr_confidence := none,
           metadata := { tags := some ["beach", "sunset"],
                         category := some "photo_of_object" } }]
      = apply_filters 0 (some { category := some "photo_of_object" })
          (apply_filters 0 (some { tag := some "beach" })
            [{ id := "m1", score := 1, filename := "f", path_raw := "p",
               path_processed := none, hash := none, ingested_at := some 10,
               ocr_text := none, ocr_confidence := none,
               metadata := { tags := some ["beach", "sunset"],
                             category := some "photo_of_object" } }]) :=
  filter_union_composes 0 { tag := some "beach" } { category := some "photo_of_object" }
    (by decide)
    [{ id := "m1", score := 1, filename := "f", path_raw := "p",
       path_processed := none, hash := none, ingested_at := some 10,
       ocr_text := none, ocr_confidence := none,
       metadata := { tags := some ["beach", "sunset"],
                     category := some "photo_of_object" } }]

/-! ## C6 -/

/-- C6: `search` fetches exactly `topK * 3` raw results from the VectorStore
when a filter set is supplied and exactly `topK` when none is, applies the
filters locally, truncates to at most `topK`, and when filtering leaves
fewer than `topK` it returns that shorter (possibly empty) list unchanged —
it never errors. -/
theorem search_overfetch_and_truncate (store : List ℚ → List ScoredPoint)
    (now : Int) (vec : List ℚ) (topK : Nat) :
    (∀ f : FilterRequest,
      text_search store now vec topK (some f)
        = (apply_filters now (some f)
            ((client_search store vec (topK * 3)).map toMatch)).take topK) ∧
    (text_search store now vec topK none
      = (client_search store vec topK).map toMatch) ∧
    (∀ filters, (text_search store now vec topK filters).length ≤ topK) ∧
    (∀ f : FilterRequest,
      (apply_filters now (some f)
          ((client_search store vec (topK * 3)).map toMatch)).length ≤ topK →
        text_search store now vec topK (some f)
          = apply_filters now (some f)
              ((client_search store vec (topK * 3)).map toMatch)) := by
  refine ⟨?_, ?_, ?_, ?_⟩
  · intro f
    simp [text_search, retrieve_k]
  · simp only [text_search, retrieve_k, Option.isSome_none, Bool.false_eq_true,
      if_false, apply_filters, client_search]
    rw [List.map_take, List.take_take, min_self]
  · intro filters
    simp only [text_search]
    exact List.length_take_le topK _
  · intro f h
    simp only [text_search, retrieve_k, Option.isSome_some, if_true]
    exact List.take_of_length_le h

/-- C6 witness: a concrete store of three points and a category filter that
keeps a single one; the filtered list is shorter than `topK` and is returned
whole. -/
theorem search_overfetch_and_truncate_witness :
    text_search
      (fun _ => [{ id := "1", score := 3, payload := some { category := some "receipt" } },
                 { id := "2", score := 2, payload := some {} },
                 { id := "3", score := 1, payload := some {} }])
      0 [1] 2
      (some { category := some "receipt" })
      = apply_filters 0 (some { category := some "receipt" })
          ((client_search
            (fun _ => [{ id := "1", score := 3, payload := some { category := some "receipt" } },
                       { id := "2", score := 2, payload := some {} },
                       { id := "3", score := 1, payload := some {} }])
            [1] (2 * 3)).map toMatch) :=
  (search_overfetch_and_truncate
      (fun _ => [{ id := "1", score := 3, payload := some { category := some "receipt" } },
                 { id := "2", score := 2, payload := some {} },
                 { id := "3", score := 1, payload := some {} }])
      0 [1] 2).2.2.2 { category := some "receipt" } (by decide)

/-! ## C4 -/

/-- C4 (counterexample): for a store holding one record that a category
filter rejects, the QA retrieval returns that record while the filtered text
search returns nothing — so the QA match list does not equal the filtered
search result for the same query vector and `topK`. -/
theorem qa_matches_ignore_filters :
    (answer_question (fun _ => [{ id := "1", score := 1, payload := some {} }])
        (fun _ => "ans") [1] 1).1.matchList
      ≠ text_search (fun _ => [{ id := "1", score := 1, payload := some {} }])
          0 [1] 1 (some { category := some "receipt" }) := by
  decide

/-- C4 (amended): `answer_question` accepts no filter predicate set; it
embeds the question as text and queries the VectorStore directly with limit
`topK`, and its match list equals the text-search result for the same query
vector and `topK` with no filters (for which the search fetches exactly
`topK` and applies no predicate). -/
theorem qa_matches_eq_unfiltered_search (store : List ℚ → List ScoredPoint)
    (llm : List SearchMatch → String) (vec : List ℚ) (topK : Nat) (now : Int) :
    (answer_question store llm vec topK).1.matchList
      = text_search store now vec topK none := by
  have hsearch : text_search store now vec topK none
      = (client_search store vec topK).map toMatch := by
    simp only [text_search, retrieve_k, Option.isSome_none, Bool.false_eq_true,
      if_false, apply_filters, client_search]
    rw [List.map_take, List.take_take, min_self]
  rw [hsearch]
  unfold answer_question
  by_cases h : ((client_search store vec topK).map toMatch).isEmpty
  · simp only [h, if_true]
    exact (List.isEmpty_iff.mp h).symm
  · simp only [h, Bool.false_eq_true, if_false]

/-! ## C10 -/

/-- C10: a match without an ingestion timestamp is never rejected by the
`date_min`/`date_max` predicates (both checks are vacuously true and the
overall verdict is unchanged by dropping them), but a present `days`
predicate always rejects it. -/
theorem filters_missing_timestamp_asymmetry (now : Int) (f : FilterRequest)
    (m : SearchMatch) (hm : m.ingested_at = none) :
    (∀ d, f.days = some d → matchPasses now f m = false) ∧
    dateMinCheck f.date_min m = true ∧
    dateMaxCheck f.date_max m = true ∧
    matchPasses now f m
      = matchPasses now { f with date_min := none, date_max := none } m := by
  refine ⟨?_, ?_, ?_, ?_⟩
  · intro d hd
    simp [matchPasses, daysCheck, hd, hm]
  · cases h1 : f.date_min <;> simp [dateMinCheck, hm, h1]
  · cases h2 : f.date_max <;> simp [dateMaxCheck, hm, h2]
  · cases h1 : f.date_min <;> cases h2 : f.date_max <;>
      simp [matchPasses, dateMinCheck, dateMaxCheck, hm, h1, h2]

/-- C10 witness: concrete timestamp-less match, rejected by `days := 7` but
passing a pure date-range filter. -/
theorem filters_missing_timestamp_asymmetry_witness :
    matchPasses 0 { days := some 7 }
      { id := "m", score := 0, filename := "", path_raw := "",
        path_processed := none, hash := none, ingested_at := none,
        ocr_text := none, ocr_confidence := none, metadata := {} } = false :=
  (filters_missing_timestamp_asymmetry 0 { days := some 7 }
      { id := "m", score := 0, filename := "", path_raw := "",
        path_processed := none, hash := none, ingested_at := none,
        ocr_text := none, ocr_confidence := none, metadata := {} } rfl).1 7 rfl

/-! ## C1 -/

/-- C1 (counterexample): when the image and text unit vectors cancel
exactly, `embed_image_and_text` returns the zero vector (it skips the
re-normalization, not the write), the embedding step still produces a
vector, and `ingest_image` upserts a record whose stored vector is the zero
vector. -/
theorem zero_vector_record_stored :
    embed_image_and_text (EuclideanSpace.single (0 : Fin 1) (1:ℝ)) (some "ocr")
        (EuclideanSpace.single 0 (-1)) = 0 ∧
    (ingest_embed_and_store true false (EuclideanSpace.single (0 : Fin 1) (1:ℝ))
        (some "ocr") (EuclideanSpace.single 0 (-1)) "id0" {} []).1 = true ∧
    (ingest_embed_and_store true false (EuclideanSpace.single (0 : Fin 1) (1:ℝ))
        (some "ocr") (EuclideanSpace.single 0 (-1)) "id0" {} []).2
      = [{ id := "id0", vector := 0, payload := {} }] := by
  have hsum : EuclideanSpace.single (0 : Fin 1) (1:ℝ)
      + EuclideanSpace.single 0 (-1) = 0 := by
    funext j
    simp [EuclideanSpace.single_apply]
    split <;> norm_num
  have hz : embed_image_and_text (EuclideanSpace.single (0 : Fin 1) (1:ℝ)) (some "ocr")
      (EuclideanSpace.single 0 (-1)) = 0 := by
    simp [embed_image_and_text, hsum]
  refine ⟨hz, rfl, ?_⟩
  simp [ingest_embed_and_store, upsert_if_vector, hz]

/-- C1 (amended): a record is upserted into the VectorStore exactly when the
embedding step ran and produced a vector without raising; every record the
write adds carries the fused vector (which in the exact-cancellation case is
the zero vector, so a zero vector can be stored); when no vector was
produced the store is untouched and `embedded` is false. -/
theorem upsert_iff_vector_produced {n : Nat} (embed embedRaises : Bool)
    (imgVec : Vec n) (ocrText : Option String) (txtVec : Vec n)
    (imageId : String) (payload : Payload) (store : List (StoredImage n)) :
    ((ingest_embed_and_store embed embedRaises imgVec ocrText txtVec imageId
        payload store).1 = (embed && !embedRaises)) ∧
    (∀ rec ∈ (ingest_embed_and_store embed embedRaises imgVec ocrText txtVec
        imageId payload store).2,
      rec ∈ store ∨
        (rec.id = imageId ∧ rec.vector = embed_image_and_text imgVec ocrText txtVec)) ∧
    ((embed && !embedRaises) = false →
      (ingest_embed_and_store embed embedRaises imgVec ocrText txtVec imageId
        payload store).2 = store) := by
  cases embed with
  | false =>
    refine ⟨rfl, ?_, fun _ => rfl⟩
    intro rec hrec
    exact Or.inl hrec
  | true =>
    cases embedRaises with
    | true =>
      refine ⟨rfl, ?_, fun _ => rfl⟩
      intro rec hrec
      exact Or.inl hrec
    | false =>
      refine ⟨rfl, ?_, by simp⟩
      intro rec hrec
      rw [show (ingest_embed_and_store true false imgVec ocrText txtVec imageId
            payload store).2
          = store ++ [{ id := imageId,
                        vector := embed_image_and_text imgVec ocrText txtVec,
                        payload := payload }] from rfl] at hrec
      rcases List.mem_append.mp hrec with h | h
      · exact Or.inl h
      · have heq := List.mem_singleton.mp h
        subst heq
        exact Or.inr ⟨rfl, rfl⟩

/-- C1 witness: the amended statement with embedding disabled — no record is
added. -/
theorem upsert_iff_vector_produced_witness :
    (ingest_embed_and_store false false (EuclideanSpace.single (0 : Fin 1) (1:ℝ))
        none (EuclideanSpace.single 0 (1:ℝ)) "w" {} []).2 = [] :=
  (upsert_iff_vector_produced false false (EuclideanSpace.single (0 : Fin 1) (1:ℝ))
      none (EuclideanSpace.single 0 (1:ℝ)) "w" {} []).2.2 rfl

/-! ## C9 -/

/-- C9: for unit image and text vectors that are not exact opposites, the
fused embedding (sum renormalized) has unit norm; with absent or empty text
the fused result is the image vector unchanged. -/
theorem fused_vector_unit_norm {n : Nat} (imgVec txtVec : Vec n) (t : String)
    (_himg : norm imgVec = 1) (_htxt : norm txtVec = 1)
    (hopp : txtVec ≠ -imgVec) (ht : t ≠ "") :
    norm (embed_image_and_text imgVec (some t) txtVec) = 1 ∧
    embed_image_and_text imgVec none txtVec = imgVec ∧
    embed_image_and_text imgVec (some "") txtVec = imgVec := by
  refine ⟨?_, rfl, by simp [embed_image_and_text]⟩
  have hc : imgVec + txtVec ≠ 0 := fun h => hopp (eq_neg_of_add_eq_zero_right h)
  have hpos : 0 < norm (imgVec + txtVec) := norm_pos_iff.mpr hc
  simp only [embed_image_and_text]
  rw [if_neg ht, if_pos hpos, norm_smul, norm_inv, norm_norm]
  exact inv_mul_cancel₀ (ne_of_gt hpos)

/-- C9 witness: two concrete orthogonal unit vectors fuse to a unit vector. -/
theorem fused_vector_unit_norm_witness :
    norm (embed_image_and_text (EuclideanSpace.single (0 : Fin 2) (1:ℝ))
        (some "hello") (EuclideanSpace.single 1 (1:ℝ))) = 1 :=
  (fused_vector_unit_norm (EuclideanSpace.single (0 : Fin 2) (1:ℝ))
      (EuclideanSpace.single 1 (1:ℝ)) "hello"
      (by rw [EuclideanSpace.norm_single]; norm_num)
      (by rw [EuclideanSpace.norm_single]; norm_num)
      (by
        intro h
        have h1 := congrFun h (1 : Fin 2)
        simp [EuclideanSpace.single_apply] at h1)
      (by decide)).1

end ImageStack
